import Mathlib

/-!
Verification development for `teams_chats_export.py`, a script that mirrors
a remote paginated chat store into a local file archive and renders it to
HTML.  Python values are embedded shallowly: `str` becomes `String`
(sequences of Unicode code points in both languages, compared by code
point), `None`-able fields become `Option`, the message-file directory and
the hosted-content blob directory become association lists keyed by the
file name's varying part, and byte strings become `List Nat`.  Fallible
Python code (statements that can raise) is embedded with `Except String`
or with an explicit error field, the error message standing for the
exception.
-/

namespace TeamsChatsExport

/-- Bytes of a binary file (`bytes` in Python). -/
abbrev Bytes := List Nat

/-- Truthiness of an optional Python string: `None` and `""` are falsy. -/
def py_truthy : Option String → Bool
  | none => false
  | some s => !(s == "")

/-- Lookup in an association-list file store (`os.path.exists` / file read). -/
def store_lookup {α : Type} : List (String × α) → String → Option α
  | [], _ => none
  | (k, v) :: rest, key => if k == key then some v else store_lookup rest key

/-- Create-or-overwrite write of a file (`open(path, "w")` then `write`). -/
def store_write {α : Type} : List (String × α) → String → α → List (String × α)
  | [], key, value => [(key, value)]
  | (k, v) :: rest, key, value =>
    if k == key then (key, value) :: rest else (k, v) :: store_write rest key value

/-- Body of a message: `msg["body"]` with its `contentType` and `content`. -/
structure MsgBody where
  contentType : String
  content : String
deriving DecidableEq, Repr

/-- JSON-decoded payload of an attachment's `content` field.  The Python
code calls `json.loads` on the raw string; the decoded shape is embedded
directly: a `messageReference` payload carries
`messageSender.user.displayName` and `messagePreview`, a code-snippet
payload carries `codeSnippetUrl`. -/
inductive AttachmentContent where
  | messageRef (displayName : String) (messagePreview : String)
  | codeSnippet (codeSnippetUrl : String)
  | otherContent (raw : String)
deriving DecidableEq, Repr

/-- One element of `msg["attachments"]`. -/
structure Attachment where
  id : String
  contentType : String
  contentUrl : String
  name : String
  content : AttachmentContent
deriving DecidableEq, Repr

/-- A chat message record as delivered by the feed and as stored in
`msg_<id>.json` (the JSON round trip is faithful, so the stored file is
identified with the record itself). -/
structure Msg where
  id : String
  deletedDateTime : Option String
  lastModifiedDateTime : Option String
  lastEditedDateTime : Option String
  body : Option MsgBody
  attachments : List Attachment
deriving DecidableEq, Repr

/-- State of `download_messages` while scanning a feed: the message files
of the chat directory (keyed by message id, standing for
`msg_<id>.json`), the three counters, and a ghost counter `visited` of
how many feed records the loop body has examined. -/
structure SyncState where
  store : List (String × Msg)
  count_saved : Nat
  count_updated : Nat
  count_unchanged : Nat
  visited : Nat
deriving DecidableEq, Repr

/-- One iteration of the `async for msg in fetch_all_for_request(...)` loop
body in `download_messages`.  Returns the new state and `true` when the
loop continues to the next feed record (`false` embeds `break`).
`save_msg` writes the message file; its hosted-content side effect targets
the disjoint blob store and is modelled separately
(`download_hosted_content`). -/
def sync_step (st : SyncState) (msg : Msg) (force : Bool) : SyncState × Bool :=
  let st := { st with visited := st.visited + 1 }
  match store_lookup st.store msg.id with
  | none =>
    ({ st with
        store := store_write st.store msg.id msg
        count_saved := st.count_saved + 1 }, true)
  | some existing_msg =>
    if !py_truthy msg.deletedDateTime then
      if existing_msg.lastModifiedDateTime != msg.lastModifiedDateTime
          || existing_msg.lastEditedDateTime != msg.lastEditedDateTime then
        ({ st with
            store := store_write st.store msg.id msg
            count_updated := st.count_updated + 1 }, true)
      else
        ({ st with count_unchanged := st.count_unchanged + 1 }, force)
    else
      ({ st with count_unchanged := st.count_unchanged + 1 }, true)

/-- The scan loop of `download_messages` over the records the feed
delivers, in order, honouring `break`. -/
def download_messages_loop (force : Bool) : List Msg → SyncState → SyncState
  | [], st => st
  | msg :: rest, st =>
    let step := sync_step st msg force
    if step.2 then download_messages_loop force rest step.1 else step.1

/-- The function `download_messages`: the fast-path guard
`force or not last_msg_id or not last_msg_exists` followed by the scan.
`none` embeds the fast-path exit ("No new messages in the chat since last
run"); the store is then untouched.  When `last_msg_id` is `None`, the
Python f-string probes the file `msg_None.json`, hence the key `"None"`. -/
def download_messages (force : Bool) (last_msg_id : Option String)
    (feed : List Msg) (store : List (String × Msg)) : Option SyncState :=
  let key := match last_msg_id with
    | some i => i
    | none => "None"
  let last_msg_exists := (store_lookup store key).isSome
  if force || !py_truthy last_msg_id || !last_msg_exists then
    some (download_messages_loop force feed ⟨store, 0, 0, 0, 0⟩)
  else
    none

/-- The module-level constant `filename_size_limit = 255`. -/
def filename_size_limit : Nat := 255

/-- The function `get_hosted_content_filename`: builds
`f"hosted_content_{msg_id}_{hosted_content_id}"` and slices
`filename[0:filename_size_limit]` (the first 255 code points). -/
def get_hosted_content_filename (msg_id hosted_content_id : String) : String :=
  let filename := "hosted_content_" ++ msg_id ++ "_" ++ hosted_content_id
  String.mk (filename.data.take filename_size_limit)

/-- Content of a file in the blob store: Python distinguishes `bytes`
values from `str` values, and binary-mode writes reject `str`. -/
inductive FileValue where
  | fbytes (b : Bytes)
  | fstr (s : String)
deriving DecidableEq, Repr

/-- Result of one `download_hosted_content` call: the chat directory's
blob files afterwards, a ghost flag recording whether the remote fetch
was performed, and the exception the call raised, if any. -/
structure HCResult where
  store : List (String × FileValue)
  fetched : Bool
  error : Option String
deriving DecidableEq, Repr

/-- The function `download_hosted_content`.  `fetch_result` is the
outcome of the awaited remote `content.get()` call (`.error e` embeds the
exception `e` the call raised).  The `try/except` turns an exception into
`result = str(e)`; then `open(path, "wb")` truncates the file and
`f.write(result)` writes it — but a binary-mode `write` of a `str` raises
`TypeError`, leaving the truncated (empty) file behind. -/
def download_hosted_content (fetch_result : Except String Bytes)
    (msg_id hosted_content_id : String)
    (chat_dir : List (String × FileValue)) : HCResult :=
  let result : FileValue := match fetch_result with
    | .ok b => .fbytes b
    | .error e => .fstr e
  let filename := get_hosted_content_filename msg_id hosted_content_id
  match result with
  | .fbytes b => ⟨store_write chat_dir filename (.fbytes b), true, none⟩
  | .fstr _ =>
    ⟨store_write chat_dir filename (.fbytes []), true,
      some "TypeError: a bytes-like object is required, not str"⟩

/-- A request descriptor for the paginated API: the initial `getable`
object passed to `fetch_all_for_request`, or `getable.with_url(link)` for
a follow-up page. -/
inductive Req where
  | initial
  | withUrl (link : String)
deriving DecidableEq, Repr

/-- A decoded page envelope (`response.json()`): the `value` array of
records and the `"@odata.nextLink"` entry when that key is present. -/
structure Page (α : Type) where
  value : List α
  nextLink : Option String
deriving DecidableEq, Repr

/-- Observable outcome of running `fetch_all_for_request` under a fuel
bound: the records yielded, whether the `while` loop exited (rather than
the fuel running out), and how many `get()` calls were issued. -/
structure FetchRun (α : Type) where
  records : List α
  terminated : Bool
  gets : Nat
deriving DecidableEq, Repr

/-- The `while getable_:` loop of `fetch_all_for_request`.  `oracle`
gives the (falsy-or-not) response of each `get()` call; `results` is the
last decoded page (`None` initially); `g` is the current `getable_`
(never `None` on entry — the code only clears it right before the loop
exits).  Each recursive call is one loop iteration that issued a `get()`;
`fuel` bounds those iterations, and exhausting it reports
`terminated := false`. -/
def fetch_all_loop {α : Type} (oracle : Req → Option (Page α)) :
    Nat → Option (Page α) → Req → FetchRun α
  | 0, _, _ => ⟨[], false, 0⟩
  | fuel + 1, results, g =>
    let g1 : Option Req := match results with
      | some p => match p.nextLink with
        | some l => some (.withUrl l)
        | none => none
      | none => some g
    match g1 with
    | none => ⟨[], true, 0⟩
    | some g1' =>
      match oracle g1' with
      | some page =>
        let rest := fetch_all_loop oracle fuel (some page) g1'
        ⟨page.value ++ rest.records, rest.terminated, rest.gets + 1⟩
      | none =>
        let rest := fetch_all_loop oracle fuel results g1'
        ⟨rest.records, rest.terminated, rest.gets + 1⟩

/-- The function `fetch_all_for_request`, started from the initial
request with `results = None`. -/
def fetch_all_for_request {α : Type} (oracle : Req → Option (Page α))
    (fuel : Nat) : FetchRun α :=
  fetch_all_loop oracle fuel none .initial

/-- Python's lexicographic comparison of strings, on their code-point
sequences: `a <= b` for `str`.  (Embedded structurally rather than through
`String`'s order instances so that it evaluates.) -/
def chars_le : List Char → List Char → Bool
  | [], _ => true
  | _ :: _, [] => false
  | a :: as, b :: bs =>
    if a.toNat < b.toNat then true
    else if b.toNat < a.toNat then false
    else chars_le as bs

/-- Python's `a <= b` on `str` values. -/
def pystr_le (a b : String) : Bool :=
  chars_le a.data b.data

/-- Python's `topic.replace(os.path.sep, "_")` for the single-character
POSIX separator `"/"`: every `'/'` becomes `'_'`. -/
def replace_sep (s : String) : String :=
  String.mk (s.data.map (fun c => if c = '/' then '_' else c))

/-- One element of `chat["members"]` (only its `displayName` is used). -/
structure ChatMember where
  displayName : Option String
deriving DecidableEq, Repr

/-- A chat record as read back from `<id>.json`. -/
structure Chat where
  id : String
  topic : Option String
  members : List ChatMember
deriving DecidableEq, Repr

/-- The function `get_member_list`: substitute `"No Name"` for falsy
display names, sort (Python's `sorted` is a stable sort under the
code-point order on `str`), join with `", "`. -/
def get_member_list (chat : Chat) : String :=
  let members := chat.members.map (fun m => match m.displayName with
    | some n => if n == "" then "No Name" else n
    | none => "No Name")
  String.intercalate ", " (members.mergeSort pystr_le)

/-- The function `get_chat_name`: the topic with `os.path.sep` (`"/"` on
POSIX) replaced by `"_"` when the topic is truthy, else the member
list. -/
def get_chat_name (chat : Chat) : String :=
  match chat.topic with
  | some t => if t == "" then get_member_list chat else replace_sep t
  | none => get_member_list chat

/-- One entry of the `all_chats` list built by `render_all`. -/
structure IndexEntry where
  filename : String
  chat_name : String
deriving DecidableEq, Repr

/-- The index-building part of `render_all`: the chat records are
processed in the order of the sorted file listing (the order of the input
list here); each contributes `{"filename": f"{id}.html", "chat_name":
get_chat_name(chat)}`; finally `sorted(all_chats, key=...chat_name)`
(stable, embedded by the stable `mergeSort`). -/
def render_all (chats : List Chat) : List IndexEntry :=
  let all_chats := chats.map (fun chat => ⟨chat.id ++ ".html", get_chat_name chat⟩)
  all_chats.mergeSort (fun a b => pystr_le a.chat_name b.chat_name)

/-- The function `get_hosted_content_id`: `json.loads(attachment["content"])`
then `content["codeSnippetUrl"].split("/")[-2]`.  A non-code-snippet
payload raises `KeyError`; an index `-2` into a too-short split raises
`IndexError`. -/
def get_hosted_content_id (attachment : Attachment) : Except String String :=
  match attachment.content with
  | .codeSnippet url =>
    let parts := url.splitOn "/"
    if h : parts.length ≥ 2 then
      .ok (parts.get ⟨parts.length - 2, by omega⟩)
    else
      .error "IndexError: list index out of range"
  | _ => .error "KeyError: codeSnippetUrl"

/-- Decode stored bytes as text (`open(path, "r")` reads the blob file in
text mode). -/
def decode_bytes (b : Bytes) : String :=
  String.mk (b.map Char.ofNat)

/-- The function `render_hosted_content`: read the blob file named by
`get_hosted_content_filename`; a missing file raises
`FileNotFoundError`. -/
def render_hosted_content (msg : Msg) (hosted_content_id : String)
    (chat_dir : List (String × FileValue)) : Except String String :=
  let filename := get_hosted_content_filename msg.id hosted_content_id
  match store_lookup chat_dir filename with
  | none => .error "FileNotFoundError"
  | some (.fbytes b) => .ok (decode_bytes b)
  | some (.fstr s) => .ok s

/-- The replacement callback `get_attachment` inside
`render_message_body`: `[a for a in msg["attachments"] if a["id"] ==
attachment_id][0]` raises `IndexError` when no attachment carries the
referenced id; otherwise the found attachment is rendered according to
its `contentType`. -/
def get_attachment (msg : Msg) (chat_dir : List (String × FileValue))
    (attachment_id : String) : Except String String :=
  match msg.attachments.filter (fun a => a.id == attachment_id) with
  | [] => .error "IndexError: list index out of range"
  | attachment :: _ =>
    if attachment.contentType == "reference" then
      .ok ("Attachment: <a href='" ++ attachment.contentUrl ++
        "' data-attachment-id='" ++ attachment.id ++ "'>" ++ attachment.name ++
        "</a><br/>")
    else if attachment.contentType == "messageReference" then
      match attachment.content with
      | .messageRef displayName messagePreview =>
        .ok ("<blockquote class='message-reference' data-attachment-id='" ++
          attachment.id ++ "'>" ++ displayName ++ ": " ++ messagePreview ++
          "</blockquote>")
      | _ => .error "KeyError: messageSender"
    else if attachment.contentType == "application/vnd.microsoft.card.codesnippet" then
      match get_hosted_content_id attachment with
      | .error e => .error e
      | .ok hosted_content_id =>
        match render_hosted_content msg hosted_content_id chat_dir with
        | .error e => .error e
        | .ok content =>
          .ok ("<div class='hosted-content' data-attachment-id='" ++
            attachment.id ++ "' data-hosted-content-id='" ++ hosted_content_id ++
            "'><pre><code>" ++ content ++ "</code></pre></div>")
    else
      .ok ("Attachment (raw data): " ++ attachment.id ++ "<br/>")

/-- A token of a message body as scanned by the attachment-placeholder
substitution `re.sub('<attachment id="(.+?)"></attachment>',
get_attachment, v)`: literal text between placeholders, or one
placeholder's captured id. -/
inductive BodyPart where
  | text (s : String)
  | attachmentTag (id : String)
deriving DecidableEq, Repr

/-- The attachment-placeholder substitution pass over a tokenized body:
each placeholder is replaced by `get_attachment`'s result; an exception
raised by the callback propagates out of `re.sub` (and out of
`render_message_body`). -/
def sub_attachments (msg : Msg) (chat_dir : List (String × FileValue)) :
    List BodyPart → Except String String
  | [] => .ok ""
  | part :: rest =>
    let piece : Except String String := match part with
      | .text s => .ok s
      | .attachmentTag i => get_attachment msg chat_dir i
    match piece with
    | .error e => .error e
    | .ok s =>
      match sub_attachments msg chat_dir rest with
      | .error e => .error e
      | .ok r => .ok (s ++ r)

/-! Helper lemmas about the store and the scan loop. -/

theorem store_lookup_write_self {α : Type} (s : List (String × α)) (k : String) (v : α) :
    store_lookup (store_write s k v) k = some v := by
  induction s with
  | nil => simp [store_write, store_lookup]
  | cons hd tl ih =>
    obtain ⟨k', v'⟩ := hd
    by_cases h : (k' == k) = true
    · simp [store_write, h, store_lookup]
    · simp [store_write, h, store_lookup, ih]

theorem store_write_write_self {α : Type} (s : List (String × α)) (k : String) (v : α) :
    store_write (store_write s k v) k v = store_write s k v := by
  induction s with
  | nil => simp [store_write]
  | cons hd tl ih =>
    obtain ⟨k', v'⟩ := hd
    by_cases h : (k' == k) = true
    · simp [store_write, h]
    · simp [store_write, h, ih]

theorem sync_step_continue_of_force (st : SyncState) (msg : Msg) :
    (sync_step st msg true).2 = true := by
  cases h : store_lookup st.store msg.id with
  | none => simp [sync_step, h]
  | some existing =>
    by_cases hd : py_truthy msg.deletedDateTime = true
    · simp [sync_step, h, hd]
    · by_cases hm : (existing.lastModifiedDateTime != msg.lastModifiedDateTime
          || existing.lastEditedDateTime != msg.lastEditedDateTime) = true
      · simp [sync_step, h, hd, hm]
      · simp [sync_step, h, hd, hm]

theorem sync_step_visited (st : SyncState) (msg : Msg) (force : Bool) :
    (sync_step st msg force).1.visited = st.visited + 1 := by
  cases h : store_lookup st.store msg.id with
  | none => simp [sync_step, h]
  | some existing =>
    by_cases hd : py_truthy msg.deletedDateTime = true
    · simp [sync_step, h, hd]
    · by_cases hm : (existing.lastModifiedDateTime != msg.lastModifiedDateTime
          || existing.lastEditedDateTime != msg.lastEditedDateTime) = true
      · simp [sync_step, h, hd, hm]
      · simp [sync_step, h, hd, hm]

theorem download_messages_loop_visits_all (feed : List Msg) :
    ∀ st : SyncState,
      (download_messages_loop true feed st).visited = st.visited + feed.length := by
  induction feed with
  | nil =>
    intro st
    simp [download_messages_loop]
  | cons m rest ih =>
    intro st
    simp only [download_messages_loop, sync_step_continue_of_force, if_true]
    rw [ih, sync_step_visited]
    simp only [List.length_cons]
    omega

/-! Sample records used by witnesses and counterexamples. -/

/-- A live stored message. -/
def msg_plain : Msg :=
  ⟨"1700", none, some "2023-12-31T10:00:00Z", none, some ⟨"text", "old body"⟩, []⟩

/-- The same message as delivered by the feed with its tombstone set. -/
def msg_tomb : Msg :=
  ⟨"1700", some "2024-01-01T00:00:00Z", some "2023-12-31T10:00:00Z", none, none, []⟩

/-- The same message as delivered by the feed after an edit (newer
`lastModifiedDateTime`, different body). -/
def msg_edit : Msg :=
  ⟨"1700", none, some "2024-02-02T00:00:00Z", none, some ⟨"text", "new body"⟩, []⟩

/-- An unrelated message not yet stored. -/
def msg_other : Msg :=
  ⟨"1800", none, some "2024-01-05T00:00:00Z", none, none, []⟩

/-! Claim C1. -/

/-- C1 (tombstone safety): when a local stored copy of a message exists
and the incoming feed record for it is tombstoned (`deletedDateTime`
truthy), the loop iteration leaves the whole message store — in
particular the stored copy — unchanged and counts the message as
unchanged. -/
theorem tombstone_safety (st : SyncState) (msg existing : Msg) (force : Bool)
    (hexist : store_lookup st.store msg.id = some existing)
    (htomb : py_truthy msg.deletedDateTime = true) :
    (sync_step st msg force).1.store = st.store ∧
    store_lookup (sync_step st msg force).1.store msg.id = some existing ∧
    (sync_step st msg force).1.count_unchanged = st.count_unchanged + 1 ∧
    (sync_step st msg force).1.count_saved = st.count_saved ∧
    (sync_step st msg force).1.count_updated = st.count_updated := by
  simp [sync_step, hexist, htomb]

theorem tombstone_safety_witness :
    store_lookup [("1700", msg_plain)] msg_tomb.id = some msg_plain ∧
    py_truthy msg_tomb.deletedDateTime = true ∧
    (sync_step ⟨[("1700", msg_plain)], 0, 0, 0, 0⟩ msg_tomb false).1.store =
      [("1700", msg_plain)] :=
  ⟨by decide, by decide,
    (tombstone_safety ⟨[("1700", msg_plain)], 0, 0, 0, 0⟩ msg_tomb msg_plain false
      (by decide) (by decide)).1⟩

/-! Claim C2. -/

/-- C2 counterexample: a tombstoned message with no local record IS
persisted by `download_messages` (the `if not os.path.exists(path)`
branch saves unconditionally, before the tombstone is ever consulted), so
a local record for its id does exist after the sync step, counted as
saved. -/
theorem tombstoned_unseen_counterexample :
    py_truthy msg_tomb.deletedDateTime = true ∧
    download_messages false none [msg_tomb] [] =
      some ⟨[("1700", msg_tomb)], 1, 0, 0, 1⟩ := by
  constructor
  · decide
  · decide

/-- C2 amended: a feed message with no local stored record is always
persisted and counted as saved — whether or not its tombstone
(`deletedDateTime`) is set; the tombstone check only protects messages
that already have a local copy. -/
theorem tombstoned_unseen_amended (st : SyncState) (msg : Msg) (force : Bool)
    (habsent : store_lookup st.store msg.id = none) :
    (sync_step st msg force).1.store = store_write st.store msg.id msg ∧
    store_lookup (sync_step st msg force).1.store msg.id = some msg ∧
    (sync_step st msg force).1.count_saved = st.count_saved + 1 ∧
    (sync_step st msg force).2 = true := by
  refine ⟨?_, ?_, ?_, ?_⟩ <;>
    simp [sync_step, habsent, store_lookup_write_self]

theorem tombstoned_unseen_amended_witness :
    store_lookup ([] : List (String × Msg)) msg_tomb.id = none ∧
    store_lookup (sync_step ⟨[], 0, 0, 0, 0⟩ msg_tomb false).1.store msg_tomb.id =
      some msg_tomb :=
  ⟨by decide,
    (tombstoned_unseen_amended ⟨[], 0, 0, 0, 0⟩ msg_tomb false (by decide)).2.1⟩

/-! Claim C3. -/

/-- C3 (revision monotonicity): for a stored message and an incoming
non-tombstoned feed record with the same id, the stored copy is
overwritten and counted as updated exactly when the marker pairs
(`lastModifiedDateTime`, `lastEditedDateTime`) differ in at least one
component; when both markers agree the store is untouched, the message is
counted as unchanged, and the loop continues only under `force` (so
without `force` the scan halts). -/
theorem revision_monotonicity (st : SyncState) (msg existing : Msg) (force : Bool)
    (hexist : store_lookup st.store msg.id = some existing)
    (hlive : py_truthy msg.deletedDateTime = false) :
    ((existing.lastModifiedDateTime ≠ msg.lastModifiedDateTime ∨
      existing.lastEditedDateTime ≠ msg.lastEditedDateTime) →
      sync_step st msg force =
        ({ st with
            store := store_write st.store msg.id msg
            count_updated := st.count_updated + 1
            visited := st.visited + 1 }, true)) ∧
    (existing.lastModifiedDateTime = msg.lastModifiedDateTime →
      existing.lastEditedDateTime = msg.lastEditedDateTime →
      sync_step st msg force =
        ({ st with
            count_unchanged := st.count_unchanged + 1
            visited := st.visited + 1 }, force)) := by
  constructor
  · intro hdiff
    have hm : (existing.lastModifiedDateTime != msg.lastModifiedDateTime
        || existing.lastEditedDateTime != msg.lastEditedDateTime) = true := by
      rcases hdiff with h | h <;> simp [bne_iff_ne, h]
    simp [sync_step, hexist, hlive, hm]
  · intro h1 h2
    simp [sync_step, hexist, hlive, h1, h2]

theorem revision_monotonicity_witness :
    store_lookup [("1700", msg_plain)] msg_edit.id = some msg_plain ∧
    py_truthy msg_edit.deletedDateTime = false ∧
    msg_plain.lastModifiedDateTime ≠ msg_edit.lastModifiedDateTime ∧
    sync_step ⟨[("1700", msg_plain)], 0, 0, 0, 0⟩ msg_edit false =
      (⟨[("1700", msg_edit)], 0, 1, 0, 1⟩, true) :=
  ⟨by decide, by decide, by decide,
    (revision_monotonicity ⟨[("1700", msg_plain)], 0, 0, 0, 0⟩ msg_edit msg_plain false
      (by decide) (by decide)).1 (Or.inl (by decide))⟩

/-! Claim C4. -/

/-- C4 counterexample: without `force`, the scan does NOT halt at the
first message counted as unchanged.  Here the first feed record is a
tombstoned message counted as unchanged, yet the loop goes on to visit
and persist the second feed record (`visited = 2`, `count_saved = 1`);
only the equal-markers branch breaks. -/
theorem early_stop_counterexample :
    download_messages false none [msg_tomb, msg_other] [("1700", msg_plain)] =
      some ⟨[("1700", msg_plain), ("1800", msg_other)], 1, 0, 1, 2⟩ := by
  decide

/-- C4 amended: with `force` set the scan visits every one of the N
delivered messages (and `download_messages` always takes the scan path);
without `force` the scan halts exactly at the first message counted as
unchanged because its revision markers equal the stored copy's — a
message counted as unchanged because it is tombstoned does not halt the
scan. -/
theorem early_stop_amended (feed rest : List Msg) (st : SyncState) (m ex : Msg)
    (last_msg_id : Option String) (store : List (String × Msg))
    (h1 : store_lookup st.store m.id = some ex)
    (h2 : py_truthy m.deletedDateTime = false)
    (h3 : ex.lastModifiedDateTime = m.lastModifiedDateTime)
    (h4 : ex.lastEditedDateTime = m.lastEditedDateTime) :
    (download_messages_loop true feed st).visited = st.visited + feed.length ∧
    download_messages true last_msg_id feed store =
      some (download_messages_loop true feed ⟨store, 0, 0, 0, 0⟩) ∧
    download_messages_loop false (m :: rest) st =
      { st with
          count_unchanged := st.count_unchanged + 1
          visited := st.visited + 1 } := by
  refine ⟨download_messages_loop_visits_all feed st, ?_, ?_⟩
  · simp [download_messages]
  · have hstep := (revision_monotonicity st m ex false h1 h2).2 h3 h4
    simp [download_messages_loop, hstep]

theorem early_stop_amended_witness :
    store_lookup [("1700", msg_plain)] msg_plain.id = some msg_plain ∧
    (download_messages_loop true [msg_tomb, msg_other]
        ⟨[("1700", msg_plain)], 0, 0, 0, 0⟩).visited = 0 + 2 ∧
    download_messages_loop false [msg_plain, msg_other]
        ⟨[("1700", msg_plain)], 0, 0, 0, 0⟩ =
      ⟨[("1700", msg_plain)], 0, 0, 1, 1⟩ := by
  have h := early_stop_amended [msg_tomb, msg_other] [msg_other]
    ⟨[("1700", msg_plain)], 0, 0, 0, 0⟩ msg_plain msg_plain none []
    (by decide) (by decide) rfl rfl
  exact ⟨by decide, h.1, h.2.2⟩

/-! Claim C5. -/

/-- C5 counterexample: the local key for the (message id, hosted-content
id) pair already exists in the store with bytes `[1, 2, 3]`, yet
`download_hosted_content` performs the remote fetch anyway (`fetched =
true`; the function has no existence check) and overwrites the stored
bytes with the newly fetched `[9]` — so the second call is not a no-op
and the already-stored bytes are not left in place. -/
theorem hosted_idempotence_counterexample :
    (download_hosted_content (.ok [9]) "m" "h"
        [("hosted_content_m_h", .fbytes [1, 2, 3])]).fetched = true ∧
    (download_hosted_content (.ok [9]) "m" "h"
        [("hosted_content_m_h", .fbytes [1, 2, 3])]).store =
      [("hosted_content_m_h", .fbytes [9])] := by
  constructor
  · decide
  · decide

/-- C5 amended: `download_hosted_content` never skips the remote fetch —
it fetches unconditionally and overwrites the derived key with the
fetched bytes, whether or not the key already exists; calling it twice
performs the remote fetch twice, and the second call changes nothing only
because it rewrites the same bytes. -/
theorem hosted_fetch_unconditional (chat_dir : List (String × FileValue))
    (msg_id hosted_content_id : String) (b : Bytes) :
    download_hosted_content (.ok b) msg_id hosted_content_id chat_dir =
      ⟨store_write chat_dir (get_hosted_content_filename msg_id hosted_content_id)
        (.fbytes b), true, none⟩ ∧
    download_hosted_content (.ok b) msg_id hosted_content_id
        (download_hosted_content (.ok b) msg_id hosted_content_id chat_dir).store =
      ⟨(download_hosted_content (.ok b) msg_id hosted_content_id chat_dir).store,
        true, none⟩ := by
  constructor
  · rfl
  · simp [download_hosted_content, store_write_write_self]

/-! Claim C6. -/

/-- C6 (code bug): when the remote hosted-content fetch raises, the code
sets `result = str(e)` intending to store the failure text, but then
writes it to a file opened in binary mode (`"wb"`); `f.write` of a `str`
raises `TypeError`, so the error propagates out of
`download_hosted_content` (aborting the sync) and the blob file is left
truncated empty — the failure's textual description is never stored as
the content. -/
theorem hosted_soft_fail_bug :
    (download_hosted_content (.error "403 Forbidden: no access to hosted content")
        "m" "h" []).error =
      some "TypeError: a bytes-like object is required, not str" ∧
    (download_hosted_content (.error "403 Forbidden: no access to hosted content")
        "m" "h" []).store =
      [("hosted_content_m_h", .fbytes [])] := by
  constructor
  · rfl
  · decide

/-! Claim C7. -/

/-- With an oracle that never returns a response, every loop iteration
re-issues the request: the run burns all its fuel in `get()` calls and
never terminates. -/
theorem fetch_all_loop_no_response (fuel : Nat) :
    ∀ g : Req, fetch_all_loop (α := Nat) (fun _ => none) fuel none g =
      ⟨[], false, fuel⟩ := by
  induction fuel with
  | zero => intro g; rfl
  | succ n ih =>
    intro g
    simp [fetch_all_loop, ih]

/-- C7 counterexample: on a missing ("no") response the paginated fetch
cursor does not terminate the sequence — it re-issues the same request.
With 3 units of fuel the run makes 3 `get()` calls (the original request
plus two retries) and still has not terminated. -/
theorem pagination_counterexample :
    fetch_all_for_request (α := Nat) (fun _ => none) 3 =
      ⟨[], false, 3⟩ := by
  rfl

/-- C7 amended: the cursor yields each page's records and continues
exactly while a next-page link is present — a fetched page with no
`"@odata.nextLink"` ends the sequence after its records are yielded; but
when a page fetch yields a missing response the cursor does not
terminate: it retries the request indefinitely, yielding nothing
further. -/
theorem pagination_amended (oracle : Req → Option (Page Nat)) (p q : Page Nat)
    (l : String) (n : Nat)
    (hp : oracle .initial = some p) (hl : p.nextLink = some l)
    (hq : oracle (.withUrl l) = some q) (hql : q.nextLink = none) :
    fetch_all_for_request oracle (n + 3) = ⟨p.value ++ q.value, true, 2⟩ ∧
    (∀ m : Nat, fetch_all_for_request (α := Nat) (fun _ => none) m =
      ⟨[], false, m⟩) := by
  constructor
  · simp [fetch_all_for_request, fetch_all_loop, hp, hl, hq, hql]
  · intro m
    exact fetch_all_loop_no_response m .initial

/-- A concrete two-page oracle: the initial request returns records
`[1, 2]` with a next-page link `"L"`, and following that link returns
`[3]` with no further link. -/
def sample_oracle : Req → Option (Page Nat)
  | .initial => some ⟨[1, 2], some "L"⟩
  | .withUrl l => if l == "L" then some ⟨[3], none⟩ else none

theorem pagination_amended_witness :
    sample_oracle .initial = some ⟨[1, 2], some "L"⟩ ∧
    fetch_all_for_request sample_oracle 3 = ⟨[1, 2, 3], true, 2⟩ :=
  ⟨rfl,
    (pagination_amended sample_oracle ⟨[1, 2], some "L"⟩ ⟨[3], none⟩ "L" 0
      rfl rfl (by decide) rfl).1⟩

/-! Claim C8. -/

/-- C8 (filename truncation): the derived hosted-content filename is the
combined name `hosted_content_<messageId>_<hostedContentId>` cut to its
first 255 code points — its length never exceeds 255, it equals the full
combined name whenever that fits, and it has length exactly 255 whenever
the combined name is longer. -/
theorem filename_truncation (msg_id hosted_content_id : String) :
    (get_hosted_content_filename msg_id hosted_content_id).length ≤ 255 ∧
    (get_hosted_content_filename msg_id hosted_content_id).data =
      ("hosted_content_" ++ msg_id ++ "_" ++ hosted_content_id).data.take 255 ∧
    (("hosted_content_" ++ msg_id ++ "_" ++ hosted_content_id).length ≤ 255 →
      get_hosted_content_filename msg_id hosted_content_id =
        "hosted_content_" ++ msg_id ++ "_" ++ hosted_content_id) ∧
    (255 < ("hosted_content_" ++ msg_id ++ "_" ++ hosted_content_id).length →
      (get_hosted_content_filename msg_id hosted_content_id).length = 255) := by
  have hlen : ∀ s : String, s.length = s.data.length := fun s => rfl
  refine ⟨?_, rfl, ?_, ?_⟩
  · rw [hlen]
    simp [get_hosted_content_filename, filename_size_limit, List.length_take]
  · intro h
    rw [hlen] at h
    show String.mk (("hosted_content_" ++ msg_id ++ "_" ++ hosted_content_id).data.take
      filename_size_limit) = _
    rw [List.take_of_length_le (by simpa [filename_size_limit] using h)]
  · intro h
    rw [hlen] at h
    rw [hlen]
    simp only [get_hosted_content_filename, filename_size_limit, List.length_take]
    omega

theorem filename_truncation_witness :
    ("hosted_content_" ++ "m1" ++ "_" ++ "h1").length ≤ 255 ∧
    get_hosted_content_filename "m1" "h1" =
      "hosted_content_" ++ "m1" ++ "_" ++ "h1" :=
  ⟨by decide, (filename_truncation "m1" "h1").2.2.1 (by decide)⟩

/-! Claim C9. -/

theorem chars_le_refl (l : List Char) : chars_le l l = true := by
  induction l with
  | nil => rfl
  | cons a as ih => simp [chars_le, ih]

theorem chars_le_trans : ∀ a b c : List Char,
    chars_le a b = true → chars_le b c = true → chars_le a c = true := by
  intro a
  induction a with
  | nil =>
    intro b c h1 h2
    rfl
  | cons x xs ih =>
    intro b c h1 h2
    cases b with
    | nil => simp [chars_le] at h1
    | cons y ys =>
      cases c with
      | nil => simp [chars_le] at h2
      | cons z zs =>
        simp only [chars_le] at h1 h2 ⊢
        split_ifs at h1 h2 ⊢ <;>
          first
            | rfl
            | exact ih ys zs h1 h2
            | omega

theorem chars_le_total : ∀ a b : List Char, chars_le a b || chars_le b a := by
  intro a
  induction a with
  | nil =>
    intro b
    simp [chars_le]
  | cons x xs ih =>
    intro b
    cases b with
    | nil => simp [chars_le]
    | cons y ys =>
      simp only [chars_le]
      by_cases h : x.toNat < y.toNat
      · simp [h]
      · by_cases h' : y.toNat < x.toNat
        · simp [h, h']
        · simpa [h, h'] using ih ys

/-- C9 (index ordering): the emitted index list is sorted by display name
under the case-sensitive code-point order on strings, it is a permutation
of the entries in file-processing order, ties between equal display names
keep the file-processing order (the sort is stable: filtering either list
to any one display name gives the same sequence), and on topics "Zeta",
"alpha", "Beta" the uppercase-initial names come first: "Beta", "Zeta",
"alpha". -/
theorem index_ordering (chats : List Chat) (n : String) :
    (render_all chats).Pairwise
      (fun a b => pystr_le a.chat_name b.chat_name = true) ∧
    (render_all chats).Perm
      (chats.map (fun chat => ⟨chat.id ++ ".html", get_chat_name chat⟩)) ∧
    (render_all chats).filter (fun e => e.chat_name == n) =
      (chats.map (fun chat => (⟨chat.id ++ ".html", get_chat_name chat⟩ : IndexEntry))).filter
        (fun e => e.chat_name == n) ∧
    render_all [⟨"c1", some "Zeta", []⟩, ⟨"c2", some "alpha", []⟩, ⟨"c3", some "Beta", []⟩] =
      [⟨"c3.html", "Beta"⟩, ⟨"c1.html", "Zeta"⟩, ⟨"c2.html", "alpha"⟩] := by
  have trans : ∀ a b c : IndexEntry,
      pystr_le a.chat_name b.chat_name → pystr_le b.chat_name c.chat_name →
      pystr_le a.chat_name c.chat_name := by
    intro a b c h1 h2
    exact chars_le_trans _ _ _ h1 h2
  have total : ∀ a b : IndexEntry,
      pystr_le a.chat_name b.chat_name || pystr_le b.chat_name a.chat_name := by
    intro a b
    exact chars_le_total _ _
  refine ⟨?_, ?_, ?_, ?_⟩
  · exact List.sorted_mergeSort trans total _
  · exact List.mergeSort_perm _ _
  · have hmem : ∀ e ∈ (chats.map (fun chat =>
        (⟨chat.id ++ ".html", get_chat_name chat⟩ : IndexEntry))).filter
          (fun e => e.chat_name == n), e.chat_name = n := by
      intro e he
      have := List.of_mem_filter he
      simpa using this
    have hcpair : ((chats.map (fun chat =>
        (⟨chat.id ++ ".html", get_chat_name chat⟩ : IndexEntry))).filter
          (fun e => e.chat_name == n)).Pairwise
        (fun a b => pystr_le a.chat_name b.chat_name = true) := by
      apply List.pairwise_of_forall_mem_list
      intro a ha b hb
      rw [hmem a ha, hmem b hb]
      exact chars_le_refl _
    have hsub2 := List.sublist_mergeSort trans total hcpair
      (List.filter_sublist (chats.map (fun chat =>
        (⟨chat.id ++ ".html", get_chat_name chat⟩ : IndexEntry))))
    have hfilsub := hsub2.filter (fun e => e.chat_name == n)
    rw [List.filter_eq_self.mpr (by
      intro a ha
      simp [hmem a ha])] at hfilsub
    have hperm := (List.mergeSort_perm (chats.map (fun chat =>
        (⟨chat.id ++ ".html", get_chat_name chat⟩ : IndexEntry)))
        (fun a b => pystr_le a.chat_name b.chat_name)).filter
        (fun e => e.chat_name == n)
    exact (hfilsub.eq_of_length hperm.length_eq.symm).symm
  · simp [render_all, get_chat_name, replace_sep, List.mergeSort, List.splitInTwo,
      List.merge, pystr_le, chars_le]

/-! Claim C10. -/

/-- C10 (missing referenced attachment raises): when a body contains an
attachment placeholder whose id matches no attachment of the message, the
lookup `[a for a in msg["attachments"] if a["id"] == attachment_id][0]`
fails with `IndexError` — there is no fallback rendering — and the
placeholder-substitution pass over the body propagates that error, so the
transformation raises for that message. -/
theorem missing_attachment_raises (msg : Msg) (chat_dir : List (String × FileValue))
    (attachment_id : String) (parts : List BodyPart)
    (hmiss : msg.attachments.filter (fun a => a.id == attachment_id) = [])
    (hin : BodyPart.attachmentTag attachment_id ∈ parts) :
    get_attachment msg chat_dir attachment_id =
      .error "IndexError: list index out of range" ∧
    ∃ e, sub_attachments msg chat_dir parts = .error e := by
  have hga : get_attachment msg chat_dir attachment_id =
      .error "IndexError: list index out of range" := by
    simp [get_attachment, hmiss]
  refine ⟨hga, ?_⟩
  induction parts with
  | nil => cases hin
  | cons p rest ih =>
    rcases List.mem_cons.mp hin with hhead | htail
    · refine ⟨"IndexError: list index out of range", ?_⟩
      simp [sub_attachments, ← hhead, hga]
    · obtain ⟨e, he⟩ := ih htail
      cases p with
      | text s =>
        refine ⟨e, ?_⟩
        simp [sub_attachments, he]
      | attachmentTag i =>
        cases hga2 : get_attachment msg chat_dir i with
        | error e2 =>
          refine ⟨e2, ?_⟩
          simp [sub_attachments, hga2]
        | ok s =>
          refine ⟨e, ?_⟩
          simp [sub_attachments, hga2, he]

/-- A reference-type attachment carried by the sample message. -/
def att_ref : Attachment :=
  ⟨"a1", "reference", "http://example.com/f", "f.txt", .otherContent ""⟩

/-- A message whose only attachment has id `"a1"`. -/
def msg_with_att : Msg :=
  ⟨"1900", none, some "2024-03-03T00:00:00Z", none,
    some ⟨"html", "<p>see <attachment id=\x22zz\x22></attachment></p>"⟩, [att_ref]⟩

theorem missing_attachment_raises_witness :
    msg_with_att.attachments.filter (fun a => a.id == "zz") = [] ∧
    BodyPart.attachmentTag "zz" ∈ [BodyPart.text "see ", BodyPart.attachmentTag "zz"] ∧
    get_attachment msg_with_att [] "zz" =
      .error "IndexError: list index out of range" :=
  ⟨by decide, by decide,
    (missing_attachment_raises msg_with_att [] "zz"
      [BodyPart.text "see ", BodyPart.attachmentTag "zz"]
      (by decide) (by decide)).1⟩

end TeamsChatsExport
